import Mathlib

/-!
Shallow embedding of `daemon/volumes.go` (container volume resolution and
mounting) together with proofs about it.

Modelling decisions, uniform through the file:
* Go `map[string]T` values become association lists `List (String × T)`;
  reads, writes and membership tests mirror Go map semantics.
* Go's `(T, error)` returns become `Except String T`.
* The external collaborators (the daemon's container lookup, the storage
  allocator, `filepath.EvalSymlinks`, `symlink.FollowSymlinkInScope`,
  `os.Stat`/`syscall.Stat`, `os.MkdirAll`/`os.OpenFile`,
  `ioutil.ReadDir`, `archive.CopyWithTar`, `os.Chown`/`os.Chmod`) are
  modelled as explicit environments holding each call's result, and the
  filesystem side effects the code attempts are collected in an event list.
* Go string primitives (`strings.Split`, `strings.SplitN`,
  `filepath.IsAbs`, `filepath.Clean`, `filepath.Join`, `filepath.Dir`,
  `sort.Strings`) are re-implemented over character lists so that every
  definition evaluates inside the kernel.
-/

/-- Split a character list at every occurrence of the separator character;
the separators are dropped and the result always has at least one part.
This is Go `strings.Split` restricted to a one-character separator. -/
def splitOnChar (c : Char) : List Char → List (List Char)
  | [] => [[]]
  | x :: xs =>
    let r := splitOnChar c xs
    if x = c then [] :: r
    else
      match r with
      | [] => [[x]]
      | y :: ys => (x :: y) :: ys

/-- Go `strings.Split(s, ":")`. -/
def goSplitColon (s : String) : List String :=
  (splitOnChar ':' s.data).map (fun l => String.mk l)

/-- Join a list of strings with ":" between them. -/
def joinColon : List String → String
  | [] => ""
  | [x] => x
  | x :: xs => x ++ ":" ++ joinColon xs

/-- Join a list of strings with "/" between them. -/
def joinSlash : List String → String
  | [] => ""
  | [x] => x
  | x :: xs => x ++ "/" ++ joinSlash xs

/-- Go `strings.SplitN(s, ":", 2)`: one split at the first colon only. -/
def goSplitNColon2 (s : String) : List String :=
  match goSplitColon s with
  | [] => []
  | [a] => [a]
  | a :: rest => [a, joinColon rest]

/-- Go `filepath.IsAbs` on Unix: the path starts with a slash. -/
def goIsAbs (p : String) : Bool :=
  match p.data with
  | '/' :: _ => true
  | _ => false

/-- One step of Go `filepath.Clean`'s element loop: skip empty and "."
elements; for ".." pop the previous element when possible, keep ".." when
the path is relative and there is nothing to pop, drop it at the root. The
accumulator holds the output elements in reverse order. -/
def cleanStep (rooted : Bool) (acc : List (List Char)) (e : List Char) : List (List Char) :=
  if e = [] ∨ e = ['.'] then acc
  else if e = ['.', '.'] then
    match acc with
    | last :: rest => if last = ['.', '.'] then e :: acc else rest
    | [] => if rooted then [] else [e]
  else e :: acc

/-- Go `filepath.Clean` on Unix (pure lexical cleaning: collapse slashes,
drop "." elements, resolve ".." elements, return "." for an empty result). -/
def filepathClean (path : String) : String :=
  if path = "" then "."
  else
    let rooted := goIsAbs path
    let comps := splitOnChar '/' path.data
    let out := (comps.foldl (cleanStep rooted) []).reverse
    let res := joinSlash (out.map (fun l => String.mk l))
    if rooted then "/" ++ res
    else if res = "" then "." else res

/-- Go `filepath.Join(a, b)`: skip empty arguments, join with "/" and clean. -/
def goFilepathJoin (a b : String) : String :=
  if a = "" ∧ b = "" then ""
  else if a = "" then filepathClean b
  else filepathClean (a ++ "/" ++ b)

/-- Go `filepath.Dir`: everything up to the final slash, cleaned; "." when
the path holds no slash. -/
def goFilepathDir (path : String) : String :=
  let parts := splitOnChar '/' path.data
  match parts with
  | [] => "."
  | [_] => "."
  | _ => filepathClean (joinSlash ((parts.dropLast).map (fun l => String.mk l)) ++ "/")

/-- Lookup in a Go string-keyed map modelled as an association list. -/
def goMapLookup {α : Type} (m : List (String × α)) (k : String) : Option α :=
  match m with
  | [] => none
  | (k', v) :: rest => if k' = k then some v else goMapLookup rest k

/-- Write to a Go string-keyed map: replace the binding when the key is
present, append it otherwise. -/
def goMapInsert {α : Type} (m : List (String × α)) (k : String) (v : α) : List (String × α) :=
  match m with
  | [] => [(k, v)]
  | (k', v') :: rest => if k' = k then (k, v) :: rest else (k', v') :: goMapInsert rest k v

/-- Read of a Go `map[string]string`: a missing key gives the zero value. -/
def goMapGetStr (m : List (String × String)) (k : String) : String :=
  match goMapLookup m k with
  | some v => v
  | none => ""

/-- Read of a Go `map[string]bool`: a missing key gives the zero value. -/
def goMapGetBool (m : List (String × Bool)) (k : String) : Bool :=
  match goMapLookup m k with
  | some v => v
  | none => false

/-- The Volume entity of `daemon/volumes.go` (lines 17-22). -/
structure Volume where
  HostPath : String
  VolPath : String
  isReadWrite : Bool
  isBindMount : Bool
  deriving DecidableEq

/-- Go `validVolumeMode` (lines 150-157): the map lookup is true exactly for
"rw" and "ro". -/
def validVolumeMode (mode : String) : Bool :=
  if mode = "rw" then true else if mode = "ro" then true else false

/-- The absolute-host-path check ending `parseBindVolumeSpec` (lines
181-185): reject whenever the host path is not absolute, otherwise return
the volume. -/
def checkAbs (vol : Volume) : Except String Volume :=
  if goIsAbs vol.HostPath then Except.ok vol
  else Except.error (("cannot bind mount volume: ") ++ vol.HostPath ++ (" volume paths must be absolute."))

/-- Go `parseBindVolumeSpec` (lines 159-186): split the spec on ":" into
1-3 fields, fill the volume fields, then run the absolute-path check. -/
def parseBindVolumeSpec (spec : String) : Except String Volume :=
  match goSplitColon spec with
  | [_] =>
    checkAbs { HostPath := "", VolPath := spec, isReadWrite := true, isBindMount := false }
  | [a, b] =>
    checkAbs { HostPath := a, VolPath := b, isReadWrite := true, isBindMount := false }
  | [a, b, m] =>
    checkAbs { HostPath := a, VolPath := b, isReadWrite := validVolumeMode m && decide (m = "rw"), isBindMount := false }
  | _ => Except.error (("Invalid volume specification: ") ++ spec)

/-- Environment for `parseVolumesFromSpec`: `daemon.Get` composed with the
referenced container's `GetVolumes`. `none` models `Get` returning nil,
`some (Except.error e)` a failing `GetVolumes`, and `some (Except.ok vs)`
the referenced container's resolved volume set. -/
abbrev GetEnv := String → Option (Except String (List (String × Volume)))

/-- Go `parseVolumesFromSpec` (lines 101-130): split at the first colon
into container id and optional mode, resolve the container, and apply the
mode to every inherited volume. The mode check is embedded exactly as
written in the source: it errors when `validVolumeMode` is TRUE. -/
def parseVolumesFromSpec (get : GetEnv) (spec : String) :
    Except String (List (String × Volume)) :=
  match goSplitNColon2 spec with
  | [] => Except.error (("Malformed volumes-from specification: ") ++ spec)
  | cid :: rest =>
    match get cid with
    | none => Except.error (("Container ") ++ cid ++ (" not found. Impossible to mount its volumes"))
    | some (Except.error e) => Except.error e
    | some (Except.ok volumes) =>
      match rest with
      | [mode] =>
        if validVolumeMode mode then
          Except.error (("Invalid mode for volumes-from: ") ++ mode)
        else
          Except.ok (volumes.map (fun kv => (kv.1, { kv.2 with isReadWrite := decide (mode ≠ "ro") })))
      | _ => Except.ok volumes

/-- Example container lookup for the volumes-from claims: container "cont"
resolves and owns one volume at "/data", stored at "/vol/123", currently
read-only; every other id is unknown. -/
def egGetC1 : GetEnv :=
  fun cid =>
    if cid = "cont" then
      some (Except.ok [(("/data"), { HostPath := "/vol/123", VolPath := "/data", isReadWrite := false, isBindMount := false })])
    else none

/-- Byte-wise lexicographic comparison of character lists: the order Go's
`<` on strings (UTF-8 byte order, which agrees with code-point order) and
hence `sort.Strings` uses. -/
def charListLe : List Char → List Char → Bool
  | [], _ => true
  | _ :: _, [] => false
  | a :: as, b :: bs => if a = b then charListLe as bs else decide (a < b)

/-- Go string `<=` in byte order, the comparison behind `sort.Strings`. -/
def goLexLe (a b : String) : Prop := charListLe a.data b.data = true

instance goLexLe.decRel : DecidableRel goLexLe := fun a b =>
  inferInstanceAs (Decidable (charListLe a.data b.data = true))

/-- Totality of the lexicographic comparison, proved inline. -/
instance goLexLe.isTotal : IsTotal String goLexLe := by
  constructor
  intro s t
  show charListLe s.data t.data = true ∨ charListLe t.data s.data = true
  generalize s.data = a
  generalize t.data = b
  induction a generalizing b with
  | nil => exact Or.inl rfl
  | cons x as ih =>
    cases b with
    | nil => exact Or.inr rfl
    | cons y bs =>
      by_cases hxy : x = y
      · subst hxy
        simpa [charListLe] using ih bs
      · rcases lt_or_gt_of_ne hxy with h | h
        · left
          simp [charListLe, hxy, h]
        · right
          simp [charListLe, Ne.symm hxy, h]

/-- Transitivity of the lexicographic comparison, proved inline. -/
instance goLexLe.isTrans : IsTrans String goLexLe := by
  constructor
  intro s t u h1 h2
  show charListLe s.data u.data = true
  revert h1 h2
  show charListLe s.data t.data = true → charListLe t.data u.data = true →
    charListLe s.data u.data = true
  generalize s.data = a
  generalize t.data = b
  generalize u.data = c
  intro h1 h2
  induction a generalizing b c with
  | nil => rfl
  | cons x as ih =>
    cases b with
    | nil => simp [charListLe] at h1
    | cons y bs =>
      cases c with
      | nil => simp [charListLe] at h2
      | cons z cs =>
        by_cases hxy : x = y
        · subst hxy
          by_cases hxz : x = z
          · subst hxz
            simp only [charListLe, if_pos rfl] at h1 h2 ⊢
            exact ih bs cs h1 h2
          · have h2' : charListLe (x :: bs) (z :: cs) = true := h2
            simpa [charListLe, hxz] using h2'
        · by_cases hyz : y = z
          · subst hyz
            simpa [charListLe, hxy] using h1
          · have h1' : x < y := by simpa [charListLe, hxy] using h1
            have h2' : y < z := by simpa [charListLe, hyz] using h2
            have hxz : x < z := lt_trans h1' h2'
            simp [charListLe, ne_of_lt hxz, hxz]

/-- The `execdriver.Mount` fields `setupMountsForContainer` fills. -/
structure Mount where
  Source : String
  Destination : String
  Writable : Bool
  Slave : Bool
  Private : Bool
  deriving DecidableEq

/-- The container fields `daemon/volumes.go` reads and writes: the
persisted volume set (`Volumes`, `VolumesRW`), the container's filesystem
root `basefs`, the three system file paths, and the image/config declared
volume paths (`Config.Volumes`, a set of container paths). -/
structure ContainerState where
  Volumes : List (String × String)
  VolumesRW : List (String × Bool)
  basefs : String
  ResolvConfPath : String
  HostnamePath : String
  HostsPath : String
  ConfigVolumes : List String
  deriving DecidableEq

/-- Go `Container.sortedVolumeMounts` (lines 91-99): the keys of the volume
map in lexicographically sorted order. `sort.Strings` is embedded as an
insertion sort by `goLexLe`; since `goLexLe` is a linear order this is
extensionally the unique sorted arrangement `sort.Strings` produces. -/
def sortedVolumeMounts (c : ContainerState) : List String :=
  List.insertionSort goLexLe (c.Volumes.map Prod.fst)

/-- One user-volume mount entry exactly as the loop in
`setupMountsForContainer` (lines 78-84) builds it: source and writability
read from the container's maps, shared (neither slave nor private)
propagation. -/
def userVolumeMount (c : ContainerState) (path : String) : Mount :=
  { Source := goMapGetStr c.Volumes path, Destination := path,
    Writable := goMapGetBool c.VolumesRW path, Slave := false, Private := false }

/-- Go `setupMountsForContainer` (lines 45-88), returning the mount list it
stores into `container.command.Mounts`. -/
def setupMountsForContainer (c : ContainerState) : List Mount :=
  let mounts : List Mount :=
    [{ Source := c.ResolvConfPath, Destination := "/etc/resolv.conf",
       Writable := true, Slave := true, Private := false }]
  let mounts :=
    if c.HostnamePath ≠ "" then
      mounts ++ [{ Source := c.HostnamePath, Destination := "/etc/hostname",
                   Writable := true, Slave := false, Private := true }]
    else mounts
  let mounts :=
    if c.HostsPath ≠ "" then
      mounts ++ [{ Source := c.HostsPath, Destination := "/etc/hosts",
                   Writable := true, Slave := true, Private := false }]
    else mounts
  mounts ++ (sortedVolumeMounts c).map (userVolumeMount c)

/-- Modelled from the spec's words, for the C6 refinement comparison: the
fixed system mounts in their fixed order — resolv.conf (writable, slave),
then the hostname file when configured (writable, private), then the hosts
file when configured (writable, slave). -/
def specSystemMounts (c : ContainerState) : List Mount :=
  [{ Source := c.ResolvConfPath, Destination := "/etc/resolv.conf",
     Writable := true, Slave := true, Private := false }]
  ++ (if c.HostnamePath ≠ "" then
        [{ Source := c.HostnamePath, Destination := "/etc/hostname",
           Writable := true, Slave := false, Private := true }]
      else [])
  ++ (if c.HostsPath ≠ "" then
        [{ Source := c.HostsPath, Destination := "/etc/hosts",
           Writable := true, Slave := true, Private := false }]
      else [])

/-- Result of an `os.Stat` call: success carrying `IsDir()`, a not-exist
error (for which Go's `os.IsNotExist` is true), or any other error. -/
inductive StatResult where
  | ok (isDir : Bool)
  | errNotExist (msg : String)
  | errOther (msg : String)
  deriving DecidableEq

/-- Collapse a stat result to the `(bool, error)` shape `Volume.isDir`
(lines 24-31) returns: any error is surfaced, success yields `IsDir()`. -/
def statToExcept : StatResult → Except String Bool
  | StatResult.ok d => Except.ok d
  | StatResult.errNotExist m => Except.error m
  | StatResult.errOther m => Except.error m

/-- Owner and permission bits of a file as `syscall.Stat` reports them. -/
structure FileStat where
  uid : Nat
  gid : Nat
  mode : Nat
  deriving DecidableEq

/-- A filesystem side effect the embedded code attempts, in program order:
directory creation, file creation, the tar copy, and the ownership/mode
writes. -/
inductive FsEvent where
  | mkdirAll (path : String)
  | createFile (path : String)
  | copyTar (src : String) (dst : String)
  | chown (path : String) (uid : Nat) (gid : Nat)
  | chmod (path : String) (mode : Nat)
  deriving DecidableEq

/-- Results of every external call `Volume.initialize` and its helpers can
make, keyed by the argument paths. A field models one collaborator:
the storage allocator (`createVolumeHostPath`), `filepath.EvalSymlinks`,
`symlink.FollowSymlinkInScope`, `os.Stat`, `os.MkdirAll`, `os.OpenFile`,
`ioutil.ReadDir`, `archive.CopyWithTar`, `syscall.Stat`, `os.Chown` and
`os.Chmod`. -/
structure InitEnv where
  createVolumeHostPath : Except String String
  evalSymlinks : String → Except String String
  followSymlinkInScope : String → String → Except String String
  stat : String → StatResult
  mkdirAll : String → Except String Unit
  openFile : String → Except String Unit
  readDir : String → Except String (List String)
  copyWithTar : String → String → Except String Unit
  syscallStat : String → Except String FileStat
  chown : String → Nat → Nat → Except String Unit
  chmod : String → Nat → Except String Unit

/-- Go `createIfNotExists` (lines 283-303): stat the destination; when the
stat succeeds, or fails with anything other than a not-exist error, return
nil at once (creating nothing, swallowing the stat error). Only on a
not-exist error create the node: `MkdirAll` for a directory, else
`MkdirAll` on the parent followed by creating an empty file. The returned
list holds the creation calls attempted. -/
def createIfNotExists (env : InitEnv) (destination : String) (isDir : Bool) :
    List FsEvent × Except String Unit :=
  match env.stat destination with
  | StatResult.ok _ => ([], Except.ok ())
  | StatResult.errOther _ => ([], Except.ok ())
  | StatResult.errNotExist _ =>
    if isDir then
      ([FsEvent.mkdirAll destination], env.mkdirAll destination)
    else
      match env.mkdirAll (goFilepathDir destination) with
      | Except.error e => ([FsEvent.mkdirAll (goFilepathDir destination)], Except.error e)
      | Except.ok _ =>
        match env.openFile destination with
        | Except.error e =>
          ([FsEvent.mkdirAll (goFilepathDir destination), FsEvent.createFile destination], Except.error e)
        | Except.ok _ =>
          ([FsEvent.mkdirAll (goFilepathDir destination), FsEvent.createFile destination], Except.ok ())

/-- Go `copyOwnership` (lines 330-342): stat the source, then chown and
chmod the destination with the source's owner and permission bits. -/
def copyOwnership (env : InitEnv) (source destination : String) :
    List FsEvent × Except String Unit :=
  match env.syscallStat source with
  | Except.error e => ([], Except.error e)
  | Except.ok st =>
    match env.chown destination st.uid st.gid with
    | Except.error e => ([FsEvent.chown destination st.uid st.gid], Except.error e)
    | Except.ok _ =>
      match env.chmod destination st.mode with
      | Except.error e =>
        ([FsEvent.chown destination st.uid st.gid, FsEvent.chmod destination st.mode], Except.error e)
      | Except.ok _ =>
        ([FsEvent.chown destination st.uid st.gid, FsEvent.chmod destination st.mode], Except.ok ())

/-- Go `copyExistingContents` (lines 305-326): list the source directory;
when it is non-empty and the destination directory is empty, copy the
source's contents into the destination with `CopyWithTar`; finish by
propagating ownership from the source onto the destination. -/
def copyExistingContents (env : InitEnv) (source destination : String) :
    List FsEvent × Except String Unit :=
  match env.readDir source with
  | Except.error e => ([], Except.error e)
  | Except.ok volList =>
    if volList.length > 0 then
      match env.readDir destination with
      | Except.error e => ([], Except.error e)
      | Except.ok srcList =>
        if srcList.length = 0 then
          match env.copyWithTar source destination with
          | Except.error e => ([FsEvent.copyTar source destination], Except.error e)
          | Except.ok _ =>
            let r := copyOwnership env source destination
            (FsEvent.copyTar source destination :: r.1, r.2)
        else
          copyOwnership env source destination
    else
      copyOwnership env source destination

/-- Go `Volume.initialize` (lines 234-281), named `initializeVolume` here:
clean the container path; skip when the container's volume set already
holds it; allocate host storage for a managed volume without one; resolve
symlinks on the host path; compute the in-container mount-point path;
record the volume set entries; then stat the volume's host path (`isDir`),
materialize the mount-point node, and for a read-write managed volume run
content seeding. Returns the updated container, the attempted filesystem
events, and the result. -/
def initializeVolume (v : Volume) (env : InitEnv) (c : ContainerState) :
    ContainerState × List FsEvent × Except String Unit :=
  let volPath := filepathClean v.VolPath
  if (goMapLookup c.Volumes volPath).isSome then
    (c, [], Except.ok ())
  else
    match (if v.isBindMount = false ∧ v.HostPath = "" then env.createVolumeHostPath
           else Except.ok v.HostPath) with
    | Except.error e => (c, [], Except.error e)
    | Except.ok vHostPath =>
      match env.evalSymlinks vHostPath with
      | Except.error e => (c, [], Except.error e)
      | Except.ok hostPath =>
        match env.followSymlinkInScope (goFilepathJoin c.basefs volPath) c.basefs with
        | Except.error e => (c, [], Except.error e)
        | Except.ok fullVolPath =>
          let c2 : ContainerState :=
            { c with
              Volumes := goMapInsert c.Volumes volPath hostPath
              VolumesRW := goMapInsert c.VolumesRW volPath v.isReadWrite }
          match statToExcept (env.stat vHostPath) with
          | Except.error e => (c2, [], Except.error e)
          | Except.ok volIsDir =>
            match createIfNotExists env fullVolPath volIsDir with
            | (evs, Except.error e) => (c2, evs, Except.error e)
            | (evs, Except.ok _) =>
              if v.isReadWrite = true ∧ v.isBindMount = false then
                let r := copyExistingContents env fullVolPath hostPath
                (c2, evs ++ r.1, r.2)
              else
                (c2, evs, Except.ok ())

/-- The managed volume `createVolumes` (lines 199-203) builds for a
config-declared container path: that path, read-write, not a bind mount,
and the zero-value (empty) host path. -/
def managedVolume (volPath : String) : Volume :=
  { HostPath := "", VolPath := volPath, isReadWrite := true, isBindMount := false }

/-- The volume-set building loop of Go `createVolumes` (lines 196-205):
for every image/config declared container path not already present in the
volume map, add a managed volume with that path, read-write, no host path. -/
def addConfigVolumes (volumes : List (String × Volume)) (configVolumes : List String) :
    List (String × Volume) :=
  configVolumes.foldl
    (fun vols volPath =>
      if (goMapLookup vols volPath).isSome then vols
      else goMapInsert vols volPath (managedVolume volPath))
    volumes

/-- A fully permissive environment: the allocator returns "/vols/1", the
symlink resolvers are the identity, every stat sees an existing directory,
every listing is empty and every mutation succeeds. The example
environments below override single fields. -/
def egEnvBase : InitEnv :=
  { createVolumeHostPath := Except.ok ("/vols/1")
    evalSymlinks := fun p => Except.ok p
    followSymlinkInScope := fun p _ => Except.ok p
    stat := fun _ => StatResult.ok true
    mkdirAll := fun _ => Except.ok ()
    openFile := fun _ => Except.ok ()
    readDir := fun _ => Except.ok []
    copyWithTar := fun _ _ => Except.ok ()
    syscallStat := fun _ => Except.ok { uid := 0, gid := 0, mode := 0 }
    chown := fun _ _ _ => Except.ok ()
    chmod := fun _ _ => Except.ok () }

/-- An otherwise empty container rooted at "/rootfs". -/
def egCont : ContainerState :=
  { Volumes := [], VolumesRW := [], basefs := "/rootfs", ResolvConfPath := "/rc",
    HostnamePath := "", HostsPath := "", ConfigVolumes := [] }

/-- Container for the C7 witness: "/data" is already recorded. -/
def egContC7 : ContainerState :=
  { egCont with Volumes := [(("/data"), ("/vol/123"))], VolumesRW := [(("/data"), true)] }

/-- Managed volume used by the C9 witness. -/
def egVolC9 : Volume :=
  { HostPath := "", VolPath := "/data", isReadWrite := true, isBindMount := false }

/-- Environment for the C9 witness: every stat fails with a not-exist
error, so initialization fails at the `isDir` source stat — after the
record step. -/
def egEnvC9 : InitEnv :=
  { egEnvBase with stat := fun _ => StatResult.errNotExist ("missing") }

/-- Environment for the C10 witness: the stat fails with an error that is
NOT a not-exist error. -/
def egEnvC10 : InitEnv :=
  { egEnvBase with stat := fun _ => StatResult.errOther ("permission denied") }

/-- Environment for the C4 witness: the mount-point "/mnt" lists one entry,
everything else is empty. -/
def egEnvC4w : InitEnv :=
  { egEnvBase with readDir := fun p => if p = "/mnt" then Except.ok [("f")] else Except.ok [] }

/-- Managed read-write volume at "/data" backed by host directory "/host",
used by the C4 and C5 counterexamples. -/
def egVolC4 : Volume :=
  { HostPath := "/host", VolPath := "/data", isReadWrite := true, isBindMount := false }

/-- Environment for the C4 counterexample: the in-container mount-point
"/rootfs/data" is non-empty while the backing storage "/host" is empty. -/
def egEnvC4 : InitEnv :=
  { egEnvBase with
    readDir := fun p => if p = "/rootfs/data" then Except.ok [("f")] else Except.ok []
    syscallStat := fun _ => Except.ok { uid := 0, gid := 0, mode := 493 } }

/-- Environment for the C5 witness: both directories are non-empty (so no
copy happens) and the stat of any path reports owner 7:8 and mode 420. -/
def egEnvC5w : InitEnv :=
  { egEnvBase with
    readDir := fun _ => Except.ok [("f")]
    syscallStat := fun _ => Except.ok { uid := 7, gid := 8, mode := 420 } }

/-- Environment for the C5 counterexample: both directories are non-empty,
and the two paths have visibly different owners — the mount-point
"/rootfs/data" is owned by 1:2 with mode 3, the backing storage "/host" by
7:8 with mode 9. -/
def egEnvC5 : InitEnv :=
  { egEnvBase with
    readDir := fun _ => Except.ok [("f")]
    syscallStat := fun p =>
      if p = "/rootfs/data" then Except.ok { uid := 1, gid := 2, mode := 3 }
      else Except.ok { uid := 7, gid := 8, mode := 9 } }

/-- A bind-mount volume map used by the C8 witness: "/bind" is taken. -/
def egBindVolumes : List (String × Volume) :=
  [(("/bind"), { HostPath := "/hostdir", VolPath := "/bind", isReadWrite := false, isBindMount := true })]

/-- C1: the claim says a `containerID:mode` volumes-from spec fails unless
the mode is exactly "ro" or "rw" and otherwise overrides `readWrite` on the
inherited volumes. The code does the opposite: its inverted
`validVolumeMode` check REJECTS the valid modes "ro" and "rw" with the
"Invalid mode" error (contradicting that error's own message) and ACCEPTS
every other token, marking all inherited volumes read-write. -/
theorem parseVolumesFromSpec_mode_check_inverted :
    parseVolumesFromSpec egGetC1 ("cont:ro") =
      Except.error ("Invalid mode for volumes-from: ro")
    ∧ parseVolumesFromSpec egGetC1 ("cont:rw") =
      Except.error ("Invalid mode for volumes-from: rw")
    ∧ parseVolumesFromSpec egGetC1 ("cont:bogus") =
      Except.ok [(("/data"), { HostPath := "/vol/123", VolPath := "/data", isReadWrite := true, isBindMount := false })] :=
  ⟨rfl, rfl, rfl⟩

/-- C2 counterexample: a 3-field bind spec whose mode token is neither "ro"
nor "rw" does NOT fail as the claim states — `parseBindVolumeSpec` accepts
it and merely records the volume as read-only. -/
theorem parseBindVolumeSpec_invalid_mode_accepted :
    parseBindVolumeSpec ("/h:/c:foo") =
      Except.ok { HostPath := "/h", VolPath := "/c", isReadWrite := false, isBindMount := false } :=
  rfl

/-- C2 amended: for every 3-field bind spec `hostPath:containerPath:mode`
with absolute hostPath, `parseBindVolumeSpec` succeeds with
`readWrite = (mode == "rw")`; in particular a mode that is neither "ro" nor
"rw" also succeeds (read-only) instead of failing. -/
theorem parseBindVolumeSpec_three_fields (spec h c m : String)
    (harr : goSplitColon spec = [h, c, m]) (habs : goIsAbs h = true) :
    parseBindVolumeSpec spec =
      Except.ok { HostPath := h, VolPath := c, isReadWrite := decide (m = "rw"), isBindMount := false } := by
  unfold parseBindVolumeSpec
  rw [harr]
  unfold checkAbs
  by_cases hm : m = "rw"
  · subst hm
    simp [habs, validVolumeMode]
  · by_cases hro : m = "ro"
    · subst hro
      simp [habs, validVolumeMode]
    · simp [habs, validVolumeMode, hm, hro]

/-- Witness for C2 amended at the spec's own example `/host/data:/data:ro`,
which parses read-only. -/
theorem parseBindVolumeSpec_three_fields_witness :
    parseBindVolumeSpec ("/host/data:/data:ro") =
      Except.ok { HostPath := "/host/data", VolPath := "/data", isReadWrite := false, isBindMount := false } :=
  parseBindVolumeSpec_three_fields ("/host/data:/data:ro") ("/host/data") ("/data") ("ro")
    (by decide) (by decide)

/-- C3: the claim says a 1-field bind spec (container path only) succeeds
with an empty host path, because the absolute-path check is supposed to
fire only for a NON-EMPTY non-absolute host path. In the code the check
`!filepath.IsAbs(vol.HostPath)` has no non-empty guard, so the empty host
path of every 1-field spec fails it: the `case 1` branch can never return
successfully, while a 2-field spec with an absolute host path still
succeeds. -/
theorem parseBindVolumeSpec_single_field_always_fails :
    parseBindVolumeSpec ("/data") =
      Except.error ("cannot bind mount volume:  volume paths must be absolute.")
    ∧ parseBindVolumeSpec ("/h:/c") =
      Except.ok { HostPath := "/h", VolPath := "/c", isReadWrite := true, isBindMount := false } :=
  ⟨rfl, rfl⟩

/-- C6: the assembled mount list places the fixed system mounts first in
the fixed order resolv.conf, hostname (only if configured), hosts (only if
configured), followed by the user volume mounts sorted lexicographically
ascending by container path (the sorted keys are exactly the volume map's
keys); the order is pure string order, so volumes at "/a", "/a/b" and
"/ab" appear in the order "/a", "/a/b", "/ab". -/
theorem setupMountsForContainer_order (c : ContainerState) :
    setupMountsForContainer c =
      specSystemMounts c ++ (sortedVolumeMounts c).map (userVolumeMount c)
    ∧ List.Sorted goLexLe (sortedVolumeMounts c)
    ∧ (sortedVolumeMounts c).Perm (c.Volumes.map Prod.fst)
    ∧ sortedVolumeMounts
        { Volumes := [(("/ab"), ("h1")), (("/a"), ("h2")), (("/a/b"), ("h3"))],
          VolumesRW := [], basefs := "", ResolvConfPath := "", HostnamePath := "",
          HostsPath := "", ConfigVolumes := [] } = [("/a"), ("/a/b"), ("/ab")] := by
  refine ⟨?_, ?_, ?_, by decide⟩
  · unfold setupMountsForContainer specSystemMounts
    by_cases h1 : c.HostnamePath = "" <;> by_cases h2 : c.HostsPath = "" <;>
      simp [h1, h2, List.append_assoc]
  · exact List.sorted_insertionSort goLexLe _
  · exact List.perm_insertionSort goLexLe _

/-- Looking up the key just written returns the written value. -/
theorem goMapLookup_insert_self {α : Type} (m : List (String × α)) (k : String) (v : α) :
    goMapLookup (goMapInsert m k v) k = some v := by
  induction m with
  | nil => simp [goMapInsert, goMapLookup]
  | cons q rest ih =>
    obtain ⟨k1, v1⟩ := q
    by_cases h : k1 = k
    · simp [goMapInsert, goMapLookup, h]
    · simp [goMapInsert, goMapLookup, h, ih]

/-- Lookup across a map extended by one binding at its tail. -/
theorem goMapLookup_append_single {α : Type} (m : List (String × α)) (p : String) (v : α)
    (k : String) :
    goMapLookup (m ++ [(p, v)]) k =
      (match goMapLookup m k with
       | some w => some w
       | none => if p = k then some v else none) := by
  induction m with
  | nil => simp [goMapLookup]
  | cons q rest ih =>
    obtain ⟨k1, v1⟩ := q
    by_cases h : k1 = k
    · simp [goMapLookup, h]
    · simp [goMapLookup, h, ih]

/-- Writing an absent key appends the binding at the end. -/
theorem goMapInsert_absent {α : Type} (m : List (String × α)) (k : String) (v : α)
    (h : goMapLookup m k = none) : goMapInsert m k v = m ++ [(k, v)] := by
  induction m with
  | nil => simp [goMapInsert]
  | cons q rest ih =>
    obtain ⟨k1, v1⟩ := q
    by_cases h1 : k1 = k
    · rw [goMapLookup] at h
      simp [h1] at h
    · rw [goMapLookup] at h
      simp [h1] at h
      simp [goMapInsert, h1, ih h]

/-- A key misses exactly when it is not among the map's keys. -/
theorem goMapLookup_eq_none_iff {α : Type} (m : List (String × α)) (k : String) :
    goMapLookup m k = none ↔ k ∉ m.map Prod.fst := by
  induction m with
  | nil => simp [goMapLookup]
  | cons q rest ih =>
    obtain ⟨k1, v1⟩ := q
    by_cases h1 : k1 = k
    · simp [goMapLookup, h1]
    · simp [goMapLookup, h1, ih, Ne.symm h1]

/-- C7: initializing a Volume whose cleaned container path is already
present in the container's volume set is a no-op: the call returns no
error and leaves the container — both the containerPath→hostPath and the
containerPath→readWrite mapping — exactly as it was (first writer wins). -/
theorem initializeVolume_idempotent (v : Volume) (env : InitEnv) (c : ContainerState)
    (h : (goMapLookup c.Volumes (filepathClean v.VolPath)).isSome = true) :
    initializeVolume v env c = (c, [], Except.ok ()) := by
  unfold initializeVolume
  simp [h]

/-- Witness for C7: re-initializing the recorded path "/data" (spelled
here with a trailing slash, which cleaning removes) changes nothing. -/
theorem initializeVolume_idempotent_witness :
    initializeVolume { HostPath := "", VolPath := "/data/", isReadWrite := false, isBindMount := false }
      egEnvBase egContC7 = (egContC7, [], Except.ok ()) :=
  initializeVolume_idempotent _ egEnvBase egContC7 (by decide)

/-- Once initialization reaches the record step (the skip check misses and
allocation, symlink resolution and mount-point computation succeed), the
returned container is the input plus the two fresh bindings, whatever
happens in the remaining steps. -/
theorem initializeVolume_fst_after_record (v : Volume) (env : InitEnv) (c : ContainerState)
    (vHostPath hostPath fullVolPath : String)
    (h0 : goMapLookup c.Volumes (filepathClean v.VolPath) = none)
    (h1 : (if v.isBindMount = false ∧ v.HostPath = "" then env.createVolumeHostPath
           else Except.ok v.HostPath) = Except.ok vHostPath)
    (h2 : env.evalSymlinks vHostPath = Except.ok hostPath)
    (h3 : env.followSymlinkInScope (goFilepathJoin c.basefs (filepathClean v.VolPath)) c.basefs
            = Except.ok fullVolPath) :
    (initializeVolume v env c).1 =
      { c with Volumes := goMapInsert c.Volumes (filepathClean v.VolPath) hostPath
               VolumesRW := goMapInsert c.VolumesRW (filepathClean v.VolPath) v.isReadWrite } := by
  unfold initializeVolume
  simp only [h0, Option.isSome_none, Bool.false_eq_true, if_false, h1, h2, h3]
  rcases hst : statToExcept (env.stat vHostPath) with e | volIsDir
  · simp
  · rcases hci : createIfNotExists env fullVolPath volIsDir with ⟨evs, r⟩
    rcases r with e | u
    · simp [hci]
    · by_cases hrw : v.isReadWrite = true ∧ v.isBindMount = false
      · simp [hci, hrw]
      · simp [hci, hrw]

/-- C9: `initialize` records the containerPath→hostPath and
containerPath→readWrite entries before the source stat, the mount-point
creation and the content seeding; hence when any of those later steps
fails, the call returns the error while the freshly recorded entries
remain in the volume set — an error is not atomic for the set. -/
theorem initializeVolume_error_keeps_entries (v : Volume) (env : InitEnv) (c : ContainerState)
    (vHostPath hostPath fullVolPath e : String)
    (h0 : goMapLookup c.Volumes (filepathClean v.VolPath) = none)
    (h1 : (if v.isBindMount = false ∧ v.HostPath = "" then env.createVolumeHostPath
           else Except.ok v.HostPath) = Except.ok vHostPath)
    (h2 : env.evalSymlinks vHostPath = Except.ok hostPath)
    (h3 : env.followSymlinkInScope (goFilepathJoin c.basefs (filepathClean v.VolPath)) c.basefs
            = Except.ok fullVolPath)
    (h4 : (initializeVolume v env c).2.2 = Except.error e) :
    goMapLookup (initializeVolume v env c).1.Volumes (filepathClean v.VolPath) = some hostPath
    ∧ goMapLookup (initializeVolume v env c).1.VolumesRW (filepathClean v.VolPath)
        = some v.isReadWrite
    ∧ (initializeVolume v env c).2.2 = Except.error e := by
  have hf := initializeVolume_fst_after_record v env c vHostPath hostPath fullVolPath h0 h1 h2 h3
  rw [hf]
  exact ⟨goMapLookup_insert_self _ _ _, goMapLookup_insert_self _ _ _, h4⟩

/-- Witness for C9: a managed volume whose host-path stat fails after the
record step leaves "/data" recorded while the error comes back. -/
theorem initializeVolume_error_keeps_entries_witness :
    goMapLookup (initializeVolume egVolC9 egEnvC9 egCont).1.Volumes ("/data") = some ("/vols/1")
    ∧ goMapLookup (initializeVolume egVolC9 egEnvC9 egCont).1.VolumesRW ("/data") = some true
    ∧ (initializeVolume egVolC9 egEnvC9 egCont).2.2 = Except.error ("missing") :=
  initializeVolume_error_keeps_entries egVolC9 egEnvC9 egCont ("/vols/1") ("/vols/1")
    ("/rootfs/data") ("missing") rfl rfl rfl rfl rfl

/-- C10: `createIfNotExists` creates the mount-point node only when the
stat of the destination fails with a not-exist error; when the stat
succeeds, or fails with any other error, it returns nil having created
nothing and without surfacing the stat error. On a not-exist error it
creates the directory with MkdirAll, or (for a file) first the parent
directories and then the empty file. -/
theorem createIfNotExists_stat_gate (env : InitEnv) (dest : String) (d : Bool) :
    (((∃ b, env.stat dest = StatResult.ok b) ∨ (∃ m, env.stat dest = StatResult.errOther m)) →
      createIfNotExists env dest d = ([], Except.ok ()))
    ∧ ((createIfNotExists env dest d).1 ≠ [] → ∃ m, env.stat dest = StatResult.errNotExist m)
    ∧ (∀ m, env.stat dest = StatResult.errNotExist m →
        (d = true → createIfNotExists env dest d = ([FsEvent.mkdirAll dest], env.mkdirAll dest))
        ∧ (d = false →
            (createIfNotExists env dest d).1.head?
              = some (FsEvent.mkdirAll (goFilepathDir dest)))) := by
  rcases hst : env.stat dest with b | m | m
  · refine ⟨fun _ => by simp [createIfNotExists, hst], fun hne => ?_, fun m2 hm2 => ?_⟩
    · exact absurd (by simp [createIfNotExists, hst]) hne
    · cases hm2
  · refine ⟨fun h => ?_, fun _ => ⟨m, rfl⟩, fun m2 hm2 => ⟨fun hd => ?_, fun hd => ?_⟩⟩
    · rcases h with ⟨b, hb⟩ | ⟨m2, hm2⟩
      · cases hb
      · cases hm2
    · subst hd
      simp [createIfNotExists, hst]
    · subst hd
      simp only [createIfNotExists, hst]
      rcases hmk : env.mkdirAll (goFilepathDir dest) with e | u
      · simp [hmk]
      · rcases hop : env.openFile dest with e | u <;> simp [hmk, hop]
  · refine ⟨fun _ => by simp [createIfNotExists, hst], fun hne => ?_, fun m2 hm2 => ?_⟩
    · exact absurd (by simp [createIfNotExists, hst]) hne
    · cases hm2

/-- Witness for C10: under a stat failing with "permission denied" (not a
not-exist error), `createIfNotExists` creates nothing and reports nil. -/
theorem createIfNotExists_stat_gate_witness :
    createIfNotExists egEnvC10 ("/dst") true = ([], Except.ok ()) :=
  (createIfNotExists_stat_gate egEnvC10 ("/dst") true).1
    (Or.inr ⟨("permission denied"), rfl⟩)

/-- Ownership propagation never performs a tar copy: its event list holds
only chown and chmod events. -/
theorem copyOwnership_no_copyTar (env : InitEnv) (s d a b : String) :
    FsEvent.copyTar a b ∉ (copyOwnership env s d).1 := by
  unfold copyOwnership
  rcases hs : env.syscallStat s with e | st
  · simp
  · rcases hc : env.chown d st.uid st.gid with e | u
    · simp [hc]
    · rcases hm : env.chmod d st.mode with e | u <;> simp [hc, hm]

/-- C4 amended: the seeding copy runs in the code's direction — it is
attempted exactly when the in-container mount-point directory (the SOURCE
argument of `copyExistingContents`) is non-empty and the backing storage
directory (the DESTINATION argument) is empty; in particular a later
initialization that observes a non-empty backing storage performs no
copy. -/
theorem copyExistingContents_copy_iff (env : InitEnv) (src dst : String)
    (l1 l2 : List String)
    (h1 : env.readDir src = Except.ok l1) (h2 : env.readDir dst = Except.ok l2) :
    FsEvent.copyTar src dst ∈ (copyExistingContents env src dst).1 ↔ l1 ≠ [] ∧ l2 = [] := by
  unfold copyExistingContents
  rw [h1]
  cases l1 with
  | nil => simp [copyOwnership_no_copyTar]
  | cons x xs =>
    rw [h2]
    cases l2 with
    | nil =>
      rcases hcw : env.copyWithTar src dst with e | u
      · simp [hcw]
      · simp [hcw, copyOwnership_no_copyTar]
    | cons y ys =>
      simp [copyOwnership_no_copyTar]

/-- Witness for C4 amended: with the mount-point "/mnt" non-empty and the
backing storage "/host" empty, the copy is attempted. -/
theorem copyExistingContents_copy_iff_witness :
    FsEvent.copyTar ("/mnt") ("/host") ∈ (copyExistingContents egEnvC4w ("/mnt") ("/host")).1 :=
  (copyExistingContents_copy_iff egEnvC4w ("/mnt") ("/host") [("f")] [] rfl rfl).mpr
    (by decide)

/-- C4 counterexample: running `initialize` on a managed read-write volume
whose backing storage "/host" is EMPTY while the in-container mount-point
"/rootfs/data" is NON-EMPTY performs a copy — and the copy goes from the
mount-point into the backing storage, refuting the claim that content is
copied from the backing storage into the mount-point exactly when the
storage is non-empty and the mount-point empty. -/
theorem initializeVolume_seeds_into_backing_storage :
    (initializeVolume egVolC4 egEnvC4 egCont).2.1 =
      [FsEvent.copyTar ("/rootfs/data") ("/host"),
       FsEvent.chown ("/host") 0 0, FsEvent.chmod ("/host") 493]
    ∧ egEnvC4.readDir ("/host") = Except.ok [] :=
  ⟨rfl, rfl⟩

/-- C5 amended: whenever the content phase of seeding completes without an
I/O error, ownership propagation runs regardless of whether a copy
occurred, and it copies the owner uid/gid and mode obtained by statting
the SOURCE (the in-container mount-point) onto the DESTINATION path (the
backing storage) — not the other way around. -/
theorem copyExistingContents_ownership (env : InitEnv) (src dst : String)
    (l1 l2 : List String) (st : FileStat)
    (h1 : env.readDir src = Except.ok l1) (h2 : env.readDir dst = Except.ok l2)
    (h3 : env.copyWithTar src dst = Except.ok ())
    (h4 : env.syscallStat src = Except.ok st)
    (h5 : env.chown dst st.uid st.gid = Except.ok ())
    (h6 : env.chmod dst st.mode = Except.ok ()) :
    copyExistingContents env src dst =
      ((if l1.length > 0 ∧ l2.length = 0 then [FsEvent.copyTar src dst] else []) ++
        [FsEvent.chown dst st.uid st.gid, FsEvent.chmod dst st.mode], Except.ok ()) := by
  unfold copyExistingContents copyOwnership
  rw [h1]
  cases l1 with
  | nil => simp [h4, h5, h6]
  | cons x xs =>
    rw [h2]
    cases l2 with
    | nil => simp [h3, h4, h5, h6]
    | cons y ys => simp [h4, h5, h6]

/-- Witness for C5 amended: both directories non-empty, so no copy occurs,
yet ownership of the mount-point "/mnt" (owner 7:8, mode 420) is written
onto the backing storage "/host". -/
theorem copyExistingContents_ownership_witness :
    copyExistingContents egEnvC5w ("/mnt") ("/host") =
      ([FsEvent.chown ("/host") 7 8, FsEvent.chmod ("/host") 420], Except.ok ()) :=
  copyExistingContents_ownership egEnvC5w ("/mnt") ("/host") [("f")] [("f")]
    { uid := 7, gid := 8, mode := 420 } rfl rfl rfl rfl rfl rfl

/-- C5 counterexample: during `initialize` of a managed read-write volume,
the mount-point "/rootfs/data" is owned by 1:2 with mode 3 and the backing
storage "/host" by 7:8 with mode 9; the code chowns the BACKING STORAGE to
the MOUNT-POINT's owner (1:2, mode 3), and never touches the mount-point
path — refuting the claim that the backing storage's owner and mode are
copied onto the mount-point. -/
theorem initializeVolume_ownership_direction :
    (initializeVolume egVolC4 egEnvC5 egCont).2.1 =
      [FsEvent.chown ("/host") 1 2, FsEvent.chmod ("/host") 3]
    ∧ FsEvent.chown ("/rootfs/data") 7 8 ∉ (initializeVolume egVolC4 egEnvC5 egCont).2.1 :=
  ⟨rfl, by decide⟩

/-- Unfolding one step of the config-volume loop. -/
theorem addConfigVolumes_cons (volumes : List (String × Volume)) (p : String)
    (cfg : List String) :
    addConfigVolumes volumes (p :: cfg) =
      addConfigVolumes
        (if (goMapLookup volumes p).isSome then volumes
         else goMapInsert volumes p (managedVolume p)) cfg := rfl

/-- C8: when the builder folds the image/config-declared volume paths into
the volume map, a path is added only if no volume with that containerPath
already exists; every added volume is managed — isBindMount false,
readWrite true, empty host path, the path itself as VolPath; existing
entries are skipped, never overwritten, and the map's keys stay pairwise
distinct. -/
theorem addConfigVolumes_builder (volumes : List (String × Volume)) (cfg : List String)
    (hnd : (volumes.map Prod.fst).Nodup) :
    (∀ k, (goMapLookup volumes k).isSome = true →
        goMapLookup (addConfigVolumes volumes cfg) k = goMapLookup volumes k)
    ∧ (∀ k v, goMapLookup (addConfigVolumes volumes cfg) k = some v →
        goMapLookup volumes k = none →
        v.isBindMount = false ∧ v.isReadWrite = true ∧ v.HostPath = "" ∧ v.VolPath = k
          ∧ k ∈ cfg)
    ∧ ((addConfigVolumes volumes cfg).map Prod.fst).Nodup := by
  induction cfg generalizing volumes with
  | nil =>
    refine ⟨fun k hk => rfl, fun k v hv hn => ?_, hnd⟩
    have hv2 : goMapLookup volumes k = some v := hv
    rw [hv2] at hn
    cases hn
  | cons p cfg ih =>
    rw [addConfigVolumes_cons]
    by_cases hp : (goMapLookup volumes p).isSome = true
    · rw [if_pos hp]
      obtain ⟨ih1, ih2, ih3⟩ := ih volumes hnd
      refine ⟨ih1, fun k v hv hn => ?_, ih3⟩
      obtain ⟨a, b, c, d, e⟩ := ih2 k v hv hn
      exact ⟨a, b, c, d, List.mem_cons_of_mem p e⟩
    · rw [if_neg hp]
      have hpn : goMapLookup volumes p = none := by
        cases hlk : goMapLookup volumes p with
        | none => rfl
        | some w =>
          rw [hlk] at hp
          exact absurd rfl hp
      rw [goMapInsert_absent volumes p (managedVolume p) hpn]
      have hnd2 : ((volumes ++ [(p, managedVolume p)]).map Prod.fst).Nodup := by
        rw [List.map_append, List.nodup_append]
        refine ⟨hnd, List.nodup_singleton _, ?_⟩
        intro a ha hb
        simp at hb
        exact (goMapLookup_eq_none_iff volumes p).mp hpn (hb ▸ ha)
      obtain ⟨ih1, ih2, ih3⟩ := ih (volumes ++ [(p, managedVolume p)]) hnd2
      refine ⟨?_, ?_, ih3⟩
      · intro k hk
        obtain ⟨w, hw⟩ := Option.isSome_iff_exists.mp hk
        have hx : goMapLookup (volumes ++ [(p, managedVolume p)]) k = some w := by
          rw [goMapLookup_append_single, hw]
        rw [ih1 k (by rw [hx]; rfl), hx, hw]
      · intro k v hv hn
        by_cases hkp : p = k
        · subst hkp
          have hx : goMapLookup (volumes ++ [(p, managedVolume p)]) p
              = some (managedVolume p) := by
            rw [goMapLookup_append_single, hpn]
            simp
          have heq := ih1 p (by rw [hx]; rfl)
          rw [heq, hx] at hv
          injection hv with hv2
          subst hv2
          exact ⟨rfl, rfl, rfl, rfl, List.mem_cons_self p cfg⟩
        · have hx : goMapLookup (volumes ++ [(p, managedVolume p)]) k = none := by
            rw [goMapLookup_append_single, hn]
            simp [hkp]
          obtain ⟨a, b, c, d, e⟩ := ih2 k v hv hx
          exact ⟨a, b, c, d, List.mem_cons_of_mem p e⟩

/-- Witness for C8 at a concrete bind-mount map and config list: the taken
path "/bind" keeps its original binding while new paths are folded in, and
the final keys are pairwise distinct. -/
theorem addConfigVolumes_builder_witness :
    goMapLookup (addConfigVolumes egBindVolumes [("/bind"), ("/data")]) ("/bind")
      = goMapLookup egBindVolumes ("/bind")
    ∧ ((addConfigVolumes egBindVolumes [("/bind"), ("/data")]).map Prod.fst).Nodup :=
  ⟨(addConfigVolumes_builder egBindVolumes [("/bind"), ("/data")] (by decide)).1
      ("/bind") (by decide),
   (addConfigVolumes_builder egBindVolumes [("/bind"), ("/data")] (by decide)).2.2⟩
